import Mathlib

/-!
Shallow embedding of the foreground-object placement engine implemented in
`src/HumanSDG/HumanSDG_020_ForegroundObjectPalcementRandomizer.py`
(class `ForegroundObjectPlacementRandomizer`).

Modelling conventions:
* Python floats become `ℚ`; 3-vectors become `Point`.
* The external Blender camera/scene data blocks become the read-only part of
  `RandomizerState`; the object attributes of the randomizer instance become
  its mutable part.  Methods become state-passing functions.
* The external library function `util.poissonDiscSampling.poisson_disc_sampling`
  (not part of this repository's sources) is abstracted as a stream
  `outcomes : List (List Point)` of the successive values it returns; the
  retry loop in `__posson_disc_sampling` consumes that stream, and running out
  of stream (`none`) represents a loop that is still running.
* `bpy_extras.object_utils.world_to_camera_view(scene, camera, v)` (external
  library code) is abstracted as a function `Point → Point` giving the
  normalized-device-coordinate image of a world-space point.
* The two global pseudo-random generators the Python code draws from are made
  explicit: `PyDraws` records the values produced by Python's `random` module
  (`random.randint`, `random.sample`) and `NpDraws` records the index list
  produced by NumPy's `np.random.choice(.., replace = False)`.
* `sys.exit()` after the two fatal configuration prints becomes a typed
  `PlacementError` result.
-/

namespace HumanSDG

/-- World-space (or NDC-space) coordinate triple, a Python float 3-vector. -/
structure Point where
  x : ℚ
  y : ℚ
  z : ℚ
deriving DecidableEq, Repr

instance : Inhabited Point := ⟨⟨0, 0, 0⟩⟩

/-- The camera data block: an abstract world/basis transform (represented by an
abstract `Int` identifier, since its matrix entries are never inspected by
this code) together with the near/far clip distances of the camera data. -/
structure Camera where
  matrix_world : Int
  matrix_basis : Int
  data_clip_start : ℚ
  data_clip_end : ℚ
deriving DecidableEq, Repr

/-- Instance state of `ForegroundObjectPlacementRandomizer`: the externally
owned scene/camera snapshot plus the instance attributes assigned in
`__init__` and mutated by the methods.  `n_particle = none` models the initial
Python value `None`. -/
structure RandomizerState where
  scene : Int
  camera : Camera
  clip_start : ℚ
  clip_end : ℚ
  num_foreground_object_in_scene : Option Nat
  n_particle : Option Nat
  particle_coordinates : List Point
  particle_coordinates_can_see_in_view : List Point
deriving DecidableEq, Repr

/-- Method `__init__` (lines 50-69): capture the scene and camera, snapshot the clip
distances, and initialise the mutable attributes (`__num_foreground_object_in_scene
= None`, `__n_particle = None`, `__particle_coordinates = None`,
`__particle_coordinates_can_see_in_view = list()`). -/
def initState (scene : Int) (camera : Camera) : RandomizerState :=
  { scene := scene
    camera := camera
    clip_start := camera.data_clip_start
    clip_end := camera.data_clip_end
    num_foreground_object_in_scene := none
    n_particle := none
    particle_coordinates := []
    particle_coordinates_can_see_in_view := [] }

/-- The frustum acceptance predicate of line 175:
`0.0 < co_ndc.x < 1.0 and 0.0 < co_ndc.y < 1.0 and clip_start < co_ndc.z < clip_end`,
all inequalities strict. -/
def inCamView (clip_start clip_end : ℚ) (ndc : Point) : Bool :=
  decide (0 < ndc.x) && decide (ndc.x < 1) &&
    (decide (0 < ndc.y) && decide (ndc.y < 1)) &&
    (decide (clip_start < ndc.z) && decide (ndc.z < clip_end))

/-- Method `__check_particle_in_cam_view` (lines 158-180).  The method first writes
`self.__camera.matrix_world = self.__camera.matrix_basis` (line 168), then
appends every particle whose NDC image satisfies `inCamView` to the instance
list `__particle_coordinates_can_see_in_view` (which is *not* cleared first),
and finally overwrites `__particle_coordinates` and `__n_particle` from that
accumulated list. -/
def check_particle_in_cam_view (world_to_camera_view : Point → Point)
    (st : RandomizerState) : RandomizerState :=
  let cam := { st.camera with matrix_world := st.camera.matrix_basis }
  let canSee := st.particle_coordinates_can_see_in_view ++
    st.particle_coordinates.filter
      (fun p => inCamView st.clip_start st.clip_end (world_to_camera_view p))
  { st with
      camera := cam
      particle_coordinates := canSee
      n_particle := some canSee.length
      particle_coordinates_can_see_in_view := canSee }

/-- The `while self.__n_particle == None or self.__n_particle == 0:` loop of
lines 113-117, run against the stream of values returned by the external
sampler.  It exits as soon as `n_particle` is a positive number, recording the
final `(n_particle, particle_coordinates)` pair; exhausting the (arbitrarily
long) stream while still at `None`/`0` yields `none`, i.e. the loop is still
running and demands yet another sampling pass. -/
def samplingLoop (outcomes : List (List Point)) (n : Option Nat)
    (coords : List Point) : Option (Nat × List Point) :=
  match n with
  | some (k + 1) => some (k + 1, coords)
  | _ =>
    match outcomes with
    | [] => none
    | o :: rest => samplingLoop rest (some o.length) o

/-- The hard-coded recentering vector of line 120:
`loc_offset = np.array([domain_x/2, domain_y/2, -2])`. -/
def locOffset (domain : Point) : Point :=
  ⟨domain.x / 2, domain.y / 2, -2⟩

/-- Componentwise subtraction, as in `self.__particle_coordinates -= loc_offset`. -/
def pointSub (p q : Point) : Point :=
  ⟨p.x - q.x, p.y - q.y, p.z - q.z⟩

/-- Method `__posson_disc_sampling` (lines 109-121): run the retry loop, then subtract
`locOffset` from every accepted coordinate. -/
def posson_disc_sampling (domain : Point) (outcomes : List (List Point))
    (st : RandomizerState) : Option RandomizerState :=
  match samplingLoop outcomes st.n_particle st.particle_coordinates with
  | none => none
  | some (k, coords) =>
    some { st with
      n_particle := some k
      particle_coordinates := coords.map (fun p => pointSub p (locOffset domain)) }

/-- The two `sys.exit()` aborts of the import step, as a typed error. -/
inductive PlacementError where
  | CapacityExceeded (n_particle num_foreground : Nat)
  | EmptyAssetPool
deriving DecidableEq, Repr

instance {ε α : Type} [DecidableEq ε] [DecidableEq α] : DecidableEq (Except ε α) :=
  fun a b =>
    match a, b with
    | .error e, .error f =>
      match decEq e f with
      | isTrue h => isTrue (by rw [h])
      | isFalse h => isFalse (by intro hab; exact h (Except.error.inj hab))
    | .ok u, .ok v =>
      match decEq u v with
      | isTrue h => isTrue (by rw [h])
      | isFalse h => isFalse (by intro hab; exact h (Except.ok.inj hab))
    | .error _, .ok _ => isFalse (by intro hab; exact Except.noConfusion hab)
    | .ok _, .error _ => isFalse (by intro hab; exact Except.noConfusion hab)

/-- Method `__import_foreground_object_asset` (lines 124-155).  `pool` is the glob
result `foreground_object_path_list`; `sampleDraw` is the value returned by
`random.sample(pool, num_foreground)` in the `else` branch.  The capacity
check of lines 127-130 runs first, then the `__error_check` empty-pool abort,
then either the balanced loop-and-remainder import (lines 139-150) or the
random subset import (lines 151-155).  The returned list is the sequence of
asset sources passed to `__load_object`, in load order. -/
def import_foreground_object_asset {α : Type} (pool sampleDraw : List α)
    (num_foreground n_particle : Nat) : Except PlacementError (List α) :=
  if n_particle < num_foreground then
    .error (.CapacityExceeded n_particle num_foreground)
  else if pool.length < 1 then
    .error .EmptyAssetPool
  else if num_foreground ≥ pool.length then
    .ok ((List.replicate (num_foreground / pool.length) pool).flatten ++
      (if num_foreground % pool.length ≠ 0 then
        pool.take (num_foreground % pool.length) else []))
  else
    .ok sampleDraw

/-- The values drawn from Python's global `random` generator during one
invocation: `random.randint(range_min, range_max)` (line 191) and
`random.sample(pool, num)` (line 153). -/
structure PyDraws (α : Type) where
  randint : Nat
  sample : List α
deriving DecidableEq, Repr

/-- The index list drawn from NumPy's global generator by
`np.random.choice(n, size = num, replace = False)` (lines 199-201). -/
structure NpDraws where
  choice : List Nat
deriving DecidableEq, Repr

/-- Line 202: `fg_location = self.__particle_coordinates[selected_indices]`. -/
def fg_location_select (coords : List Point) (idxs : List Nat) : List Point :=
  idxs.map (fun i => coords.getD i default)

/-- The per-invocation output visible to the caller: the drawn count, the
chosen positions in draw order, and the visible-candidate count. -/
structure PlacementResult where
  requested_count : Nat
  chosen : List Point
  visible_count : Nat
deriving DecidableEq, Repr

/-- Method `foreground_object_placement_randomize` (lines 183-217): draw the count,
run the sampling pass, filter by camera visibility, import the assets (which
may abort), then select the placement locations.  `none` means the sampling
retry loop never finished. -/
def foreground_object_placement_randomize {α : Type} (domain : Point)
    (world_to_camera_view : Point → Point) (pool : List α)
    (py : PyDraws α) (npr : NpDraws) (outcomes : List (List Point))
    (st : RandomizerState) :
    Option (Except PlacementError (PlacementResult × List α × RandomizerState)) :=
  match posson_disc_sampling domain outcomes
      { st with num_foreground_object_in_scene := some py.randint } with
  | none => none
  | some st1 =>
    match import_foreground_object_asset pool py.sample py.randint
        (check_particle_in_cam_view world_to_camera_view st1).particle_coordinates.length with
    | .error e => some (.error e)
    | .ok loaded =>
      some (.ok ({ requested_count := py.randint
                   chosen := fg_location_select
                     (check_particle_in_cam_view world_to_camera_view st1).particle_coordinates
                     npr.choice
                   visible_count :=
                     (check_particle_in_cam_view world_to_camera_view st1).particle_coordinates.length },
                 loaded, check_particle_in_cam_view world_to_camera_view st1))

/-- Everything an invocation produces except the chosen points: the error (if
any), the requested and visible counts, the imported asset list, and the
post-state.  Used to state which parts of the result are independent of the
NumPy draws. -/
def resultSansChosen {α : Type} :
    Option (Except PlacementError (PlacementResult × List α × RandomizerState)) →
    Option (Except PlacementError ((Nat × Nat) × List α × RandomizerState))
  | none => none
  | some (.error e) => some (.error e)
  | some (.ok (res, loaded, st)) =>
    some (.ok ((res.requested_count, res.visible_count), loaded, st))

/-! ### Behaviour of the sampling retry loop -/

lemma samplingLoop_nil_none (coords : List Point) :
    samplingLoop [] none coords = none := rfl

lemma samplingLoop_nil_zero (coords : List Point) :
    samplingLoop [] (some 0) coords = none := rfl

lemma samplingLoop_cons_none (o : List Point) (rest : List (List Point))
    (coords : List Point) :
    samplingLoop (o :: rest) none coords = samplingLoop rest (some o.length) o := rfl

lemma samplingLoop_cons_zero (o : List Point) (rest : List (List Point))
    (coords : List Point) :
    samplingLoop (o :: rest) (some 0) coords = samplingLoop rest (some o.length) o := rfl

lemma samplingLoop_succ (outcomes : List (List Point)) (k : Nat) (coords : List Point) :
    samplingLoop outcomes (some (k + 1)) coords = some (k + 1, coords) := by
  rw [samplingLoop]

/-- If every sampling pass yields zero points, the loop never exits, however
many passes have been consumed. -/
lemma samplingLoop_all_empty (n : Nat) (n0 : Option Nat) (coords : List Point)
    (h : n0 = none ∨ n0 = some 0) :
    samplingLoop (List.replicate n []) n0 coords = none := by
  induction n generalizing n0 coords with
  | zero =>
    rcases h with h | h <;> subst h
    · exact samplingLoop_nil_none coords
    · exact samplingLoop_nil_zero coords
  | succ m ih =>
    rcases h with h | h <;> subst h <;> rw [List.replicate_succ]
    · rw [samplingLoop_cons_none]
      exact ih _ _ (Or.inr rfl)
    · rw [samplingLoop_cons_zero]
      exact ih _ _ (Or.inr rfl)

/-- After any number of zero-point passes, the loop simply retries: the first
pass that yields a non-empty point set makes it exit with that set. -/
lemma samplingLoop_empties_then_success (n : Nat) (n0 : Option Nat)
    (coords o : List Point) (rest : List (List Point))
    (h : n0 = none ∨ n0 = some 0) (ho : o ≠ []) :
    samplingLoop (List.replicate n [] ++ o :: rest) n0 coords = some (o.length, o) := by
  induction n generalizing n0 coords with
  | zero =>
    obtain ⟨a, o', rfl⟩ := List.exists_cons_of_ne_nil ho
    rcases h with h | h <;> subst h
    · rw [List.replicate_zero, List.nil_append, samplingLoop_cons_none]
      exact samplingLoop_succ rest o'.length (a :: o')
    · rw [List.replicate_zero, List.nil_append, samplingLoop_cons_zero]
      exact samplingLoop_succ rest o'.length (a :: o')
  | succ m ih =>
    rcases h with h | h <;> subst h <;> rw [List.replicate_succ, List.cons_append]
    · rw [samplingLoop_cons_none]
      exact ih _ _ (Or.inr rfl)
    · rw [samplingLoop_cons_zero]
      exact ih _ _ (Or.inr rfl)

/-- When the loop exits, the recorded particle count is positive, and (as long
as the count entering the loop matched the stored coordinates) it equals the
length of the recorded coordinate list. -/
lemma samplingLoop_pos (outcomes : List (List Point)) (n : Option Nat)
    (coords : List Point) (k : Nat) (cs : List Point)
    (hsync : n = none ∨ n = some coords.length)
    (h : samplingLoop outcomes n coords = some (k, cs)) :
    1 ≤ k ∧ k = cs.length := by
  induction outcomes generalizing n coords with
  | nil =>
    rcases hsync with h0 | h0 <;> subst h0
    · rw [samplingLoop_nil_none] at h
      exact absurd h (by simp)
    · rcases hl : coords.length with _ | m
      · rw [hl, samplingLoop_nil_zero] at h
        exact absurd h (by simp)
      · rw [hl, samplingLoop_succ] at h
        obtain ⟨rfl, rfl⟩ : m + 1 = k ∧ coords = cs := by
          simpa using h
        exact ⟨Nat.succ_le_succ (Nat.zero_le m), hl.symm⟩
  | cons o rest ih =>
    rcases hsync with h0 | h0 <;> subst h0
    · rw [samplingLoop_cons_none] at h
      exact ih _ _ (Or.inr rfl) h
    · rcases hl : coords.length with _ | m
      · rw [hl, samplingLoop_cons_zero] at h
        exact ih _ _ (Or.inr rfl) h
      · rw [hl, samplingLoop_succ] at h
        obtain ⟨rfl, rfl⟩ : m + 1 = k ∧ coords = cs := by
          simpa using h
        exact ⟨Nat.succ_le_succ (Nat.zero_le m), hl.symm⟩

/-- C6 counterexample: the retry loop of `__posson_disc_sampling` has no outer
retry cap and no typed failure.  After 100 consecutive zero-point sampling
passes the call has not failed — it is still looping (`none` = the loop
demands yet another pass), and a 101st pass that finally yields a point makes
it return normally, so no cap of 100 (or fewer) retries aborts the call. -/
theorem posson_no_retry_cap_at_100 :
    posson_disc_sampling ⟨1, 1, 1⟩ (List.replicate 100 [])
        (initState 0 ⟨0, 1, 1, 10⟩) = none ∧
    posson_disc_sampling ⟨1, 1, 1⟩ (List.replicate 100 [] ++ [[⟨5/4, 5/4, 0⟩]])
        (initState 0 ⟨0, 1, 1, 10⟩) =
      some { initState 0 ⟨0, 1, 1, 10⟩ with
               n_particle := some 1,
               particle_coordinates := [⟨3/4, 3/4, 2⟩] } :=
  ⟨by with_unfolding_all rfl, by with_unfolding_all rfl⟩

/-- C6 (amended): the retry loop around the sampling pass is unbounded — there
is no outer retry cap and no typed `SamplingExhausted` failure.  For every
number `n` of consecutive zero-point passes the loop is still running, and it
exits normally with the first non-empty point set however late that arrives. -/
theorem sampling_retry_unbounded (n : Nat) (coords o : List Point)
    (rest : List (List Point)) (ho : o ≠ []) :
    samplingLoop (List.replicate n []) none coords = none ∧
    samplingLoop (List.replicate n [] ++ o :: rest) none coords =
      some (o.length, o) :=
  ⟨samplingLoop_all_empty n none coords (Or.inl rfl),
   samplingLoop_empties_then_success n none coords o rest (Or.inl rfl) ho⟩

/-- C6 witness: the amended statement at 100 empty passes followed by a
one-point pass. -/
theorem sampling_retry_unbounded_witness :
    ([(⟨0, 0, 0⟩ : Point)] ≠ []) ∧
    (samplingLoop (List.replicate 100 []) none [] = none ∧
     samplingLoop (List.replicate 100 [] ++ [(⟨0, 0, 0⟩ : Point)] :: []) none [] =
       some ((([(⟨0, 0, 0⟩ : Point)]) : List Point).length, [⟨0, 0, 0⟩])) :=
  ⟨by decide, sampling_retry_unbounded 100 [] [⟨0, 0, 0⟩] [] (by decide)⟩

/-- C9: whenever `__posson_disc_sampling` returns control to the caller, the
produced candidate point set is non-empty — the whole sampling pass is re-run
as long as it yields zero points, so the post-state particle count is at least
one (assuming, as holds on every reachable state, that the stored particle
count is `None` or matches the stored coordinate list). -/
theorem posson_returns_nonempty (domain : Point) (outcomes : List (List Point))
    (st st' : RandomizerState)
    (hsync : st.n_particle = none ∨ st.n_particle = some st.particle_coordinates.length)
    (h : posson_disc_sampling domain outcomes st = some st') :
    ∃ k, st'.n_particle = some k ∧ 1 ≤ k ∧
      st'.particle_coordinates.length = k ∧ st'.particle_coordinates ≠ [] := by
  unfold posson_disc_sampling at h
  rcases hm : samplingLoop outcomes st.n_particle st.particle_coordinates with
    _ | ⟨k, cs⟩
  · rw [hm] at h
    exact absurd h (by simp)
  · rw [hm] at h
    obtain ⟨hk, hkl⟩ := samplingLoop_pos outcomes _ _ k cs hsync hm
    obtain rfl := Option.some.inj h
    refine ⟨k, rfl, hk, by simpa using hkl.symm, ?_⟩
    have hpos : 0 < cs.length := Nat.lt_of_lt_of_le Nat.zero_lt_one (hkl ▸ hk)
    simpa using List.ne_nil_of_length_pos (by simpa using hpos)

/-- C9 witness: a fresh instance state and a single one-point sampling pass. -/
theorem posson_returns_nonempty_witness :
    ((initState 0 ⟨0, 1, 1, 10⟩).n_particle = none ∨
      (initState 0 ⟨0, 1, 1, 10⟩).n_particle =
        some (initState 0 ⟨0, 1, 1, 10⟩).particle_coordinates.length) ∧
    (∃ k, ({ initState 0 ⟨0, 1, 1, 10⟩ with
               n_particle := some 1,
               particle_coordinates := [⟨3/4, 3/4, 2⟩] } :
            RandomizerState).n_particle = some k ∧ 1 ≤ k ∧
      ({ initState 0 ⟨0, 1, 1, 10⟩ with
           n_particle := some 1,
           particle_coordinates := [⟨3/4, 3/4, 2⟩] } :
         RandomizerState).particle_coordinates.length = k ∧
      ({ initState 0 ⟨0, 1, 1, 10⟩ with
           n_particle := some 1,
           particle_coordinates := [⟨3/4, 3/4, 2⟩] } :
         RandomizerState).particle_coordinates ≠ []) :=
  ⟨Or.inl rfl,
   posson_returns_nonempty ⟨1, 1, 1⟩ [[⟨5/4, 5/4, 0⟩]] (initState 0 ⟨0, 1, 1, 10⟩)
     { initState 0 ⟨0, 1, 1, 10⟩ with
         n_particle := some 1, particle_coordinates := [⟨3/4, 3/4, 2⟩] }
     (Or.inl rfl) (by with_unfolding_all rfl)⟩

/-- C8: after the sampling pass completes, every accepted point is translated
by the fixed vector `(-domain_x/2, -domain_y/2, +2)`, i.e. each output point
equals the raw sampled point minus `(domain_x/2, domain_y/2, -2)` (line 120
hard-codes the base height offset 2 as the third component `-2` of
`loc_offset`), and the domain's horizontal center `(domain_x/2, domain_y/2)`
maps to world `(0, 0)`. -/
theorem posson_recenter_translation (domain : Point) (outcomes : List (List Point))
    (st st' : RandomizerState) (k : Nat) (cs : List Point)
    (hloop : samplingLoop outcomes st.n_particle st.particle_coordinates = some (k, cs))
    (h : posson_disc_sampling domain outcomes st = some st') :
    st'.particle_coordinates = cs.map (fun p => pointSub p (locOffset domain)) ∧
    (∀ p : Point, pointSub p (locOffset domain) =
      ⟨p.x - domain.x / 2, p.y - domain.y / 2, p.z + 2⟩) ∧
    (∀ zc : ℚ, pointSub ⟨domain.x / 2, domain.y / 2, zc⟩ (locOffset domain) =
      ⟨0, 0, zc + 2⟩) := by
  unfold posson_disc_sampling at h
  rw [hloop] at h
  obtain rfl := Option.some.inj h
  refine ⟨rfl, ?_, ?_⟩
  · intro p
    simp [pointSub, locOffset, sub_neg_eq_add]
  · intro zc
    simp [pointSub, locOffset, sub_neg_eq_add]

/-- C8 witness: one raw sampled point `(5/4, 5/4, 0)` in the unit domain is
recentered to `(3/4, 3/4, 2)`. -/
theorem posson_recenter_translation_witness :
    (samplingLoop [[⟨5/4, 5/4, 0⟩]] (initState 0 ⟨0, 1, 1, 10⟩).n_particle
        (initState 0 ⟨0, 1, 1, 10⟩).particle_coordinates =
      some (1, [⟨5/4, 5/4, 0⟩])) ∧
    (({ initState 0 ⟨0, 1, 1, 10⟩ with
          n_particle := some 1,
          particle_coordinates := [⟨3/4, 3/4, 2⟩] } :
        RandomizerState).particle_coordinates =
      [(⟨5/4, 5/4, 0⟩ : Point)].map (fun p => pointSub p (locOffset ⟨1, 1, 1⟩)) ∧
    (∀ p : Point, pointSub p (locOffset ⟨1, 1, 1⟩) =
      ⟨p.x - (1 : ℚ) / 2, p.y - (1 : ℚ) / 2, p.z + 2⟩) ∧
    (∀ zc : ℚ, pointSub ⟨(1 : ℚ) / 2, (1 : ℚ) / 2, zc⟩ (locOffset ⟨1, 1, 1⟩) =
      ⟨0, 0, zc + 2⟩)) :=
  ⟨by with_unfolding_all rfl,
   posson_recenter_translation ⟨1, 1, 1⟩ [[⟨5/4, 5/4, 0⟩]]
     (initState 0 ⟨0, 1, 1, 10⟩)
     { initState 0 ⟨0, 1, 1, 10⟩ with
         n_particle := some 1, particle_coordinates := [⟨3/4, 3/4, 2⟩] }
     1 [⟨5/4, 5/4, 0⟩] (by with_unfolding_all rfl) (by with_unfolding_all rfl)⟩

/-! ### Camera mutation and the accumulating visibility list -/

/-- C7 counterexample: the visibility filter *writes* the camera.  Line 168
(`self.__camera.matrix_world = self.__camera.matrix_basis`) assigns the
camera's world matrix; on a camera whose world matrix differs from its basis
matrix the externally-owned camera snapshot is different after the call. -/
theorem camera_is_mutated_by_filter :
    (check_particle_in_cam_view id (initState 0 ⟨0, 1, 1, 10⟩)).camera ≠
      (initState 0 ⟨0, 1, 1, 10⟩).camera :=
  of_decide_eq_false (by with_unfolding_all rfl)

/-- C7 (amended): the §4.2 transform refresh is a *write* performed by this
engine — `__check_particle_in_cam_view` assigns `matrix_basis` to the
camera's `matrix_world` field; every other camera field, the scene snapshot
and the stored clip distances are unchanged by the call. -/
theorem camera_mutation_is_exactly_matrix_world (w : Point → Point)
    (st : RandomizerState) :
    (check_particle_in_cam_view w st).camera.matrix_world = st.camera.matrix_basis ∧
    (check_particle_in_cam_view w st).camera.matrix_basis = st.camera.matrix_basis ∧
    (check_particle_in_cam_view w st).camera.data_clip_start = st.camera.data_clip_start ∧
    (check_particle_in_cam_view w st).camera.data_clip_end = st.camera.data_clip_end ∧
    (check_particle_in_cam_view w st).scene = st.scene ∧
    (check_particle_in_cam_view w st).clip_start = st.clip_start ∧
    (check_particle_in_cam_view w st).clip_end = st.clip_end :=
  ⟨rfl, rfl, rfl, rfl, rfl, rfl, rfl⟩

/-- C10: the visible-candidate list `__particle_coordinates_can_see_in_view`
is instance state, initialised once to the empty list in `__init__` and never
cleared: each call of the visibility filter *appends* the currently accepted
points to it and returns the whole accumulated list, so a second call returns
the points accepted in earlier invocations concatenated with the points
accepted in the current one, not a recomputation from the current samples. -/
theorem visible_list_accumulates :
    (∀ (scene : Int) (cam : Camera),
      (initState scene cam).particle_coordinates_can_see_in_view = []) ∧
    (∀ (w : Point → Point) (st : RandomizerState),
      (check_particle_in_cam_view w st).particle_coordinates_can_see_in_view =
        st.particle_coordinates_can_see_in_view ++
          st.particle_coordinates.filter
            (fun p => inCamView st.clip_start st.clip_end (w p)) ∧
      (check_particle_in_cam_view w st).particle_coordinates =
        (check_particle_in_cam_view w st).particle_coordinates_can_see_in_view) ∧
    (∀ (w1 w2 : Point → Point) (st : RandomizerState) (ps2 : List Point),
      (check_particle_in_cam_view w2
          { check_particle_in_cam_view w1 st with
              particle_coordinates := ps2 }).particle_coordinates =
        (st.particle_coordinates_can_see_in_view ++
          st.particle_coordinates.filter
            (fun p => inCamView st.clip_start st.clip_end (w1 p))) ++
          ps2.filter (fun p => inCamView st.clip_start st.clip_end (w2 p))) :=
  ⟨fun _ _ => rfl, fun _ _ => ⟨rfl, rfl⟩, fun _ _ _ _ => rfl⟩

/-- C1 counterexample: the Visibility Filter's output is *not* in general the
subset of its input points satisfying the predicate.  On an instance whose
accumulated visible list still holds a point from an earlier invocation, a
call with an empty input point set returns that stale point instead of the
empty filter result. -/
theorem filter_output_not_subset_of_input :
    (check_particle_in_cam_view id
        { scene := 0, camera := ⟨0, 1, 1, 10⟩, clip_start := 1, clip_end := 10,
          num_foreground_object_in_scene := none, n_particle := some 1,
          particle_coordinates := [],
          particle_coordinates_can_see_in_view := [⟨5, 5, 5⟩] }).particle_coordinates ≠
      List.filter (fun p => inCamView 1 10 (id p)) [] :=
  of_decide_eq_false (by with_unfolding_all rfl)

/-- C1 (amended): on an invocation whose accumulated visible list is empty
(in particular the first invocation on a fresh instance), the Visibility
Filter returns exactly those input points satisfying the strict predicate
`0 < x < 1 ∧ 0 < y < 1 ∧ clip_start < z < clip_end` in camera-normalized
coordinates, in input order and with no coordinate modified (it is literally
`List.filter` of the predicate); on later invocations the stale accumulated
points are prepended to that filter result. -/
theorem filter_exact_when_accumulator_empty (w : Point → Point)
    (st : RandomizerState)
    (hacc : st.particle_coordinates_can_see_in_view = []) :
    (check_particle_in_cam_view w st).particle_coordinates =
      st.particle_coordinates.filter
        (fun p => inCamView st.clip_start st.clip_end (w p)) ∧
    (check_particle_in_cam_view w st).particle_coordinates_can_see_in_view =
      st.particle_coordinates.filter
        (fun p => inCamView st.clip_start st.clip_end (w p)) := by
  unfold check_particle_in_cam_view
  rw [hacc]
  exact ⟨List.nil_append _, List.nil_append _⟩

/-- C1 witness: on a fresh-style state holding one in-view point and one
out-of-view point, the filter returns exactly the in-view point. -/
theorem filter_exact_when_accumulator_empty_witness :
    (({ scene := 0, camera := ⟨0, 1, 1, 10⟩, clip_start := 1, clip_end := 10,
        num_foreground_object_in_scene := none, n_particle := some 2,
        particle_coordinates := [⟨1/2, 1/2, 2⟩, ⟨5, 5, 5⟩],
        particle_coordinates_can_see_in_view := [] } :
        RandomizerState).particle_coordinates_can_see_in_view = []) ∧
    (check_particle_in_cam_view id
        { scene := 0, camera := ⟨0, 1, 1, 10⟩, clip_start := 1, clip_end := 10,
          num_foreground_object_in_scene := none, n_particle := some 2,
          particle_coordinates := [⟨1/2, 1/2, 2⟩, ⟨5, 5, 5⟩],
          particle_coordinates_can_see_in_view := [] }).particle_coordinates =
      List.filter (fun p => inCamView 1 10 (id p)) [⟨1/2, 1/2, 2⟩, ⟨5, 5, 5⟩] :=
  ⟨rfl,
   (filter_exact_when_accumulator_empty id
     { scene := 0, camera := ⟨0, 1, 1, 10⟩, clip_start := 1, clip_end := 10,
       num_foreground_object_in_scene := none, n_particle := some 2,
       particle_coordinates := [⟨1/2, 1/2, 2⟩, ⟨5, 5, 5⟩],
       particle_coordinates_can_see_in_view := [] } rfl).1⟩

/-! ### Shared concrete scenario used by the witnesses -/

/-- Example camera: world transform 0, basis transform 1, clip range (1, 10). -/
def exCamera : Camera := ⟨0, 1, 1, 10⟩

/-- Example fresh instance state. -/
def exState : RandomizerState := initState 0 exCamera

/-- Example domain extents (1, 1, 1). -/
def exDomain : Point := ⟨1, 1, 1⟩

/-- Example raw output of one external sampling pass. -/
def exOutcome : List Point := [⟨5/4, 5/4, 0⟩, ⟨3/4, 3/4, 0⟩, ⟨1, 1, 0⟩]

/-- The recentered coordinates of `exOutcome` for `exDomain`; all three are
inside the camera frustum of `exCamera` under the identity NDC map. -/
def exVisible : List Point := [⟨3/4, 3/4, 2⟩, ⟨1/4, 1/4, 2⟩, ⟨1/2, 1/2, 2⟩]

/-- Example asset pool. -/
def exPool : List String := ["a", "b", "c"]

/-- The instance state after the sampling pass of the example scenario with a
requested count of 2. -/
def exSt1 : RandomizerState :=
  { exState with
      num_foreground_object_in_scene := some 2
      n_particle := some 3
      particle_coordinates := exVisible }

/-- The instance state after the visibility filter of the example scenario. -/
def exSt2 : RandomizerState :=
  { exSt1 with
      camera := ⟨1, 1, 1, 10⟩
      particle_coordinates := exVisible
      particle_coordinates_can_see_in_view := exVisible }

/-! ### The capacity check and the import step -/

/-- When the visible count is below the requested count, the import step
aborts immediately with the capacity error (lines 127-130), before the asset
folder is even read. -/
lemma import_capacity_error {α : Type} (pool sampleDraw : List α)
    (num_foreground n_particle : Nat) (hlt : n_particle < num_foreground) :
    import_foreground_object_asset pool sampleDraw num_foreground n_particle =
      .error (.CapacityExceeded n_particle num_foreground) := by
  unfold import_foreground_object_asset
  rw [if_pos hlt]

/-- When the capacity check passes and the pool is non-empty, the import step
succeeds, with either the balanced looped import or the random subset. -/
lemma import_ok_of_le {α : Type} (pool sampleDraw : List α)
    (num_foreground n_particle : Nat) (hle : num_foreground ≤ n_particle)
    (hpool : pool ≠ []) :
    import_foreground_object_asset pool sampleDraw num_foreground n_particle =
      .ok (if num_foreground ≥ pool.length then
        (List.replicate (num_foreground / pool.length) pool).flatten ++
          (if num_foreground % pool.length ≠ 0 then
            pool.take (num_foreground % pool.length) else [])
      else sampleDraw) := by
  unfold import_foreground_object_asset
  rw [if_neg (Nat.not_lt.mpr hle),
    if_neg (Nat.not_lt.mpr (List.length_pos.mpr hpool))]
  by_cases hge : num_foreground ≥ pool.length <;> simp [hge]

/-- Once the capacity check passes, the only possible abort of the import
step is the empty-pool configuration error. -/
lemma import_error_of_le {α : Type} (pool sampleDraw : List α)
    (num_foreground n_particle : Nat) (hle : num_foreground ≤ n_particle)
    (e : PlacementError)
    (h : import_foreground_object_asset pool sampleDraw num_foreground n_particle =
      .error e) : e = .EmptyAssetPool := by
  unfold import_foreground_object_asset at h
  rw [if_neg (Nat.not_lt.mpr hle)] at h
  by_cases hp : pool.length < 1
  · rw [if_pos hp] at h
    exact (Except.error.inj h).symm
  · rw [if_neg hp] at h
    by_cases hge : num_foreground ≥ pool.length <;> simp [hge] at h

/-- When the sampling pass has delivered a state `st1`, the whole invocation
reduces to the import step followed by the selection step on the filtered
state. -/
lemma randomize_eq_of_sampling {α : Type} (domain : Point) (w : Point → Point)
    (pool : List α) (py : PyDraws α) (npr : NpDraws)
    (outcomes : List (List Point)) (st st1 : RandomizerState)
    (hs : posson_disc_sampling domain outcomes
        { st with num_foreground_object_in_scene := some py.randint } = some st1) :
    foreground_object_placement_randomize domain w pool py npr outcomes st =
      match import_foreground_object_asset pool py.sample py.randint
          (check_particle_in_cam_view w st1).particle_coordinates.length with
      | .error e => some (.error e)
      | .ok loaded =>
        some (.ok ({ requested_count := py.randint
                     chosen := fg_location_select
                       (check_particle_in_cam_view w st1).particle_coordinates
                       npr.choice
                     visible_count :=
                       (check_particle_in_cam_view w st1).particle_coordinates.length },
                   loaded, check_particle_in_cam_view w st1)) := by
  unfold foreground_object_placement_randomize
  rw [hs]

/-- When the sampling retry loop never finishes, the whole invocation never
finishes. -/
lemma randomize_none_of_sampling_none {α : Type} (domain : Point)
    (w : Point → Point) (pool : List α) (py : PyDraws α) (npr : NpDraws)
    (outcomes : List (List Point)) (st : RandomizerState)
    (hs : posson_disc_sampling domain outcomes
        { st with num_foreground_object_in_scene := some py.randint } = none) :
    foreground_object_placement_randomize domain w pool py npr outcomes st = none := by
  unfold foreground_object_placement_randomize
  rw [hs]

/-- C2: whenever the drawn requested count exceeds the number of visible
candidate points, the invocation fails with the `CapacityExceeded` condition
and aborts before any selection or asset instantiation — the result carries no
`PlacementResult` and no loaded asset; and whenever the requested count is at
most the visible count, no `CapacityExceeded` failure occurs and (for a
non-empty asset pool, the separate `EmptyAssetPool` configuration error aside)
the invocation proceeds to a full successful result. -/
theorem capacity_exceeded_aborts {α : Type} (domain : Point) (w : Point → Point)
    (pool : List α) (py : PyDraws α) (npr : NpDraws)
    (outcomes : List (List Point)) (st st1 : RandomizerState)
    (hs : posson_disc_sampling domain outcomes
        { st with num_foreground_object_in_scene := some py.randint } = some st1) :
    ((check_particle_in_cam_view w st1).particle_coordinates.length < py.randint →
      foreground_object_placement_randomize domain w pool py npr outcomes st =
        some (.error (.CapacityExceeded
          (check_particle_in_cam_view w st1).particle_coordinates.length
          py.randint))) ∧
    (py.randint ≤ (check_particle_in_cam_view w st1).particle_coordinates.length →
      (∀ a b, foreground_object_placement_randomize domain w pool py npr outcomes st ≠
        some (.error (.CapacityExceeded a b))) ∧
      (pool ≠ [] → ∃ res loaded st2,
        foreground_object_placement_randomize domain w pool py npr outcomes st =
          some (.ok (res, loaded, st2)))) := by
  rw [randomize_eq_of_sampling domain w pool py npr outcomes st st1 hs]
  constructor
  · intro hlt
    rw [import_capacity_error pool py.sample py.randint
      (check_particle_in_cam_view w st1).particle_coordinates.length hlt]
  · intro hle
    constructor
    · intro a b
      rcases himp : import_foreground_object_asset pool py.sample py.randint
          (check_particle_in_cam_view w st1).particle_coordinates.length with e | loaded
      · have he := import_error_of_le pool py.sample py.randint
          (check_particle_in_cam_view w st1).particle_coordinates.length hle e himp
        subst he
        simp [himp]
      · simp [himp]
    · intro hpool
      rw [import_ok_of_le pool py.sample py.randint
        (check_particle_in_cam_view w st1).particle_coordinates.length hle hpool]
      exact ⟨_, _, _, rfl⟩

/-- C2 witness: the example scenario (three visible candidates, requested
count 2) instantiating the capacity dichotomy. -/
theorem capacity_exceeded_aborts_witness :
    (posson_disc_sampling exDomain [exOutcome]
        { exState with num_foreground_object_in_scene := some 2 } = some exSt1) ∧
    (((check_particle_in_cam_view id exSt1).particle_coordinates.length < 2 →
      foreground_object_placement_randomize exDomain id exPool ⟨2, ["a", "b"]⟩
          ⟨[0, 1]⟩ [exOutcome] exState =
        some (.error (.CapacityExceeded
          (check_particle_in_cam_view id exSt1).particle_coordinates.length 2))) ∧
    (2 ≤ (check_particle_in_cam_view id exSt1).particle_coordinates.length →
      (∀ a b, foreground_object_placement_randomize exDomain id exPool
          ⟨2, ["a", "b"]⟩ ⟨[0, 1]⟩ [exOutcome] exState ≠
        some (.error (.CapacityExceeded a b))) ∧
      (exPool ≠ [] → ∃ res loaded st2,
        foreground_object_placement_randomize exDomain id exPool ⟨2, ["a", "b"]⟩
            ⟨[0, 1]⟩ [exOutcome] exState = some (.ok (res, loaded, st2))))) :=
  ⟨by with_unfolding_all rfl,
   capacity_exceeded_aborts exDomain id exPool ⟨2, ["a", "b"]⟩ ⟨[0, 1]⟩ [exOutcome]
     exState exSt1 (by with_unfolding_all rfl)⟩

/-! ### The selection step -/

lemma fg_location_select_length (coords : List Point) (idxs : List Nat) :
    (fg_location_select coords idxs).length = idxs.length :=
  List.length_map idxs _

lemma getD_eq_get (l : List Point) (i : Nat) (h : i < l.length) :
    l.getD i default = l[i] := by
  simp [List.getD_eq_getElem?_getD, List.getElem?_eq_getElem h]

lemma fg_location_select_mem (coords : List Point) (idxs : List Nat)
    (hb : ∀ i ∈ idxs, i < coords.length) :
    ∀ p ∈ fg_location_select coords idxs, p ∈ coords := by
  intro p hp
  obtain ⟨i, hi, rfl⟩ := List.mem_map.mp hp
  rw [getD_eq_get coords i (hb i hi)]
  exact List.getElem_mem _

lemma fg_location_select_nodup (coords : List Point) (idxs : List Nat)
    (hnd : coords.Nodup) (hix : idxs.Nodup)
    (hb : ∀ i ∈ idxs, i < coords.length) :
    (fg_location_select coords idxs).Nodup := by
  refine List.Nodup.map_on ?_ hix
  intro i hi j hj hEq
  rw [getD_eq_get coords i (hb i hi), getD_eq_get coords j (hb j hj)] at hEq
  exact (hnd.getElem_inj_iff).mp hEq

/-- C3: on every valid invocation (the import step accepted, so the requested
count is at most the visible count), the selection step returns exactly
`requested_count` points, pairwise distinct, each an element of the
visible-candidate list — given that NumPy's `choice(.., replace = False)`
delivered `requested_count` distinct in-range indices and that the
visible-candidate points are themselves distinct. -/
theorem selection_correct {α : Type} (domain : Point) (w : Point → Point)
    (pool : List α) (py : PyDraws α) (npr : NpDraws)
    (outcomes : List (List Point)) (st st1 : RandomizerState)
    (res : PlacementResult) (loaded : List α) (st2 : RandomizerState)
    (hs : posson_disc_sampling domain outcomes
        { st with num_foreground_object_in_scene := some py.randint } = some st1)
    (hnd : (check_particle_in_cam_view w st1).particle_coordinates.Nodup)
    (hix : npr.choice.Nodup)
    (hlen : npr.choice.length = py.randint)
    (hb : ∀ i ∈ npr.choice,
      i < (check_particle_in_cam_view w st1).particle_coordinates.length)
    (hrun : foreground_object_placement_randomize domain w pool py npr outcomes st =
      some (.ok (res, loaded, st2))) :
    res.chosen.length = py.randint ∧ res.chosen.Nodup ∧
      ∀ p ∈ res.chosen, p ∈ (check_particle_in_cam_view w st1).particle_coordinates := by
  rw [randomize_eq_of_sampling domain w pool py npr outcomes st st1 hs] at hrun
  rcases himp : import_foreground_object_asset pool py.sample py.randint
      (check_particle_in_cam_view w st1).particle_coordinates.length with e | loaded2
  · rw [himp] at hrun
    exact absurd hrun (by simp)
  · rw [himp] at hrun
    simp only [Option.some.injEq, Except.ok.injEq, Prod.mk.injEq] at hrun
    obtain ⟨hres, hload, hst⟩ := hrun
    subst hres
    refine ⟨?_, ?_, ?_⟩
    · exact (fg_location_select_length _ _).trans hlen
    · exact fg_location_select_nodup _ _ hnd hix hb
    · exact fg_location_select_mem _ _ hb

/-- C3 witness: the example scenario — three distinct visible candidates,
requested count 2, NumPy indices `[0, 1]`. -/
theorem selection_correct_witness :
    (posson_disc_sampling exDomain [exOutcome]
        { exState with num_foreground_object_in_scene := some 2 } = some exSt1) ∧
    (check_particle_in_cam_view id exSt1).particle_coordinates.Nodup ∧
    ([0, 1] : List Nat).Nodup ∧
    ([0, 1] : List Nat).length = 2 ∧
    (∀ i ∈ ([0, 1] : List Nat),
      i < (check_particle_in_cam_view id exSt1).particle_coordinates.length) ∧
    (foreground_object_placement_randomize exDomain id exPool ⟨2, ["a", "b"]⟩
        ⟨[0, 1]⟩ [exOutcome] exState =
      some (.ok ({ requested_count := 2
                   chosen := [⟨3/4, 3/4, 2⟩, ⟨1/4, 1/4, 2⟩]
                   visible_count := 3 }, ["a", "b"], exSt2))) ∧
    (({ requested_count := 2
        chosen := [⟨3/4, 3/4, 2⟩, ⟨1/4, 1/4, 2⟩]
        visible_count := 3 } : PlacementResult).chosen.length = 2 ∧
     ({ requested_count := 2
        chosen := [⟨3/4, 3/4, 2⟩, ⟨1/4, 1/4, 2⟩]
        visible_count := 3 } : PlacementResult).chosen.Nodup ∧
     ∀ p ∈ ({ requested_count := 2
              chosen := [⟨3/4, 3/4, 2⟩, ⟨1/4, 1/4, 2⟩]
              visible_count := 3 } : PlacementResult).chosen,
       p ∈ (check_particle_in_cam_view id exSt1).particle_coordinates) :=
  ⟨by with_unfolding_all rfl,
   of_decide_eq_true (by with_unfolding_all rfl),
   by decide, rfl,
   of_decide_eq_true (by with_unfolding_all rfl),
   by with_unfolding_all rfl,
   selection_correct exDomain id exPool ⟨2, ["a", "b"]⟩ ⟨[0, 1]⟩ [exOutcome]
     exState exSt1
     { requested_count := 2
       chosen := [⟨3/4, 3/4, 2⟩, ⟨1/4, 1/4, 2⟩]
       visible_count := 3 } ["a", "b"] exSt2
     (by with_unfolding_all rfl)
     (of_decide_eq_true (by with_unfolding_all rfl))
     (by decide) rfl
     (of_decide_eq_true (by with_unfolding_all rfl))
     (by with_unfolding_all rfl)⟩

/-! ### The balanced asset-reuse loop of the binder -/

/-- In a duplicate-free list, the element at position `i` occurs in the first
`r` positions exactly when `i < r`. -/
lemma count_take_of_nodup {α : Type} [DecidableEq α] (l : List α) (hnd : l.Nodup)
    (r i : Nat) (hi : i < l.length) :
    (l.take r).count l[i] = if i < r then 1 else 0 := by
  by_cases h : i < r
  · rw [if_pos h]
    exact List.count_eq_one_of_mem ((List.take_sublist r l).nodup hnd)
      (List.mem_take_iff_getElem.mpr ⟨i, Nat.lt_min.mpr ⟨h, hi⟩, rfl⟩)
  · rw [if_neg h]
    refine List.count_eq_zero_of_not_mem ?_
    intro hmem
    obtain ⟨j, hj, hEq⟩ := List.mem_take_iff_getElem.mp hmem
    exact h ((hnd.getElem_inj_iff.mp hEq) ▸ (Nat.lt_min.mp hj).1)

/-- C4: for a non-empty, duplicate-free asset pool and a requested count
strictly larger than the pool size (with the capacity check passing), the
binder loads every source exactly `requested_count / pool_size` times and
additionally loads each of the first `requested_count % pool_size` sources,
in pool order, exactly once more. -/
theorem binder_balanced_counts {α : Type} [DecidableEq α] (pool sampleDraw : List α)
    (num_foreground n_particle : Nat) (hnd : pool.Nodup) (hpool : pool ≠ [])
    (hgt : pool.length < num_foreground) (hcap : num_foreground ≤ n_particle) :
    ∃ loaded,
      import_foreground_object_asset pool sampleDraw num_foreground n_particle =
        .ok loaded ∧
      ∀ i (hi : i < pool.length),
        loaded.count (pool.get ⟨i, hi⟩) =
          num_foreground / pool.length +
            if i < num_foreground % pool.length then 1 else 0 := by
  refine ⟨_, import_ok_of_le pool sampleDraw _ _ hcap hpool, ?_⟩
  intro i hi
  rw [if_pos (Nat.le_of_lt hgt), List.get_eq_getElem]
  have hq : ((List.replicate (num_foreground / pool.length) pool).flatten).count
      pool[i] = num_foreground / pool.length := by
    rw [List.count_flatten, List.map_replicate,
      List.count_eq_one_of_mem hnd (List.getElem_mem hi), List.sum_replicate,
      smul_eq_mul, Nat.mul_one]
  by_cases hr : num_foreground % pool.length ≠ 0
  · rw [if_pos hr, List.count_append, hq, count_take_of_nodup pool hnd _ i hi]
  · push_neg at hr
    rw [if_neg (by rw [hr]; exact fun hfalse => hfalse rfl), List.count_append, hq]
    simp [hr]

/-- C4 witness: requested count 7 against the three-source pool `[0, 1, 2]`:
source 0 is loaded 3 times and sources 1 and 2 are loaded 2 times each
(`⌊7/3⌋ = 2` full rounds plus remainder 1), the load list being
`[0, 1, 2, 0, 1, 2, 0]`. -/
theorem binder_balanced_counts_witness :
    ([0, 1, 2] : List Nat).Nodup ∧ ([0, 1, 2] : List Nat) ≠ [] ∧
    ([0, 1, 2] : List Nat).length < 7 ∧ 7 ≤ 7 ∧
    (∃ loaded,
      import_foreground_object_asset ([0, 1, 2] : List Nat) [] 7 7 = .ok loaded ∧
      ∀ i (hi : i < ([0, 1, 2] : List Nat).length),
        loaded.count (([0, 1, 2] : List Nat).get ⟨i, hi⟩) =
          7 / ([0, 1, 2] : List Nat).length +
            if i < 7 % ([0, 1, 2] : List Nat).length then 1 else 0) ∧
    import_foreground_object_asset ([0, 1, 2] : List Nat) [] 7 7 =
      .ok [0, 1, 2, 0, 1, 2, 0] ∧
    ([0, 1, 2, 0, 1, 2, 0] : List Nat).count 0 = 3 ∧
    ([0, 1, 2, 0, 1, 2, 0] : List Nat).count 1 = 2 ∧
    ([0, 1, 2, 0, 1, 2, 0] : List Nat).count 2 = 2 :=
  ⟨by decide, by decide, by decide, by decide,
   binder_balanced_counts [0, 1, 2] [] 7 7 (by decide) (by decide) (by decide)
     (by decide),
   by decide, by decide, by decide, by decide⟩

/-! ### The two pseudo-random sources -/

/-- C5 counterexample: the chosen placement locations are drawn from NumPy's
global generator, a second pseudo-random source independent of Python's
`random` module.  Two invocations with identical inputs and identical Python
draws but different NumPy draws produce different results, so fixing a single
seedable source does not reproduce the run. -/
theorem randomize_differs_under_numpy_draws :
    foreground_object_placement_randomize exDomain id exPool ⟨2, ["a", "b"]⟩
        ⟨[0, 1]⟩ [exOutcome] exState ≠
      foreground_object_placement_randomize exDomain id exPool ⟨2, ["a", "b"]⟩
        ⟨[1, 2]⟩ [exOutcome] exState :=
  of_decide_eq_false (by with_unfolding_all rfl)

/-- C5 (amended): randomness is consumed from *two* global pseudo-random
sources — Python's `random` module (count draw, asset sampling) and NumPy's
global generator (point-subset indices).  The run is a deterministic function
of the draws of both sources, and everything in the result except the chosen
points — success/failure, the error payload, the requested count, the visible
count, the loaded asset list and the post-state — is independent of the NumPy
draws. -/
theorem randomize_sans_chosen_independent_of_numpy {α : Type} (domain : Point)
    (w : Point → Point) (pool : List α) (py : PyDraws α) (npa npb : NpDraws)
    (outcomes : List (List Point)) (st : RandomizerState) :
    resultSansChosen
        (foreground_object_placement_randomize domain w pool py npa outcomes st) =
      resultSansChosen
        (foreground_object_placement_randomize domain w pool py npb outcomes st) := by
  rcases hps : posson_disc_sampling domain outcomes
      { st with num_foreground_object_in_scene := some py.randint } with _ | st1
  · rw [randomize_none_of_sampling_none domain w pool py npa outcomes st hps,
      randomize_none_of_sampling_none domain w pool py npb outcomes st hps]
  · rw [randomize_eq_of_sampling domain w pool py npa outcomes st st1 hps,
      randomize_eq_of_sampling domain w pool py npb outcomes st st1 hps]
    rcases himp : import_foreground_object_asset pool py.sample py.randint
        (check_particle_in_cam_view w st1).particle_coordinates.length with e | loaded <;>
      rfl

end HumanSDG
